import Mathlib

/-!
Verification development for the ofono binder devmon plugin
(src/binder_devmon_ds.c and src/binder_devmon_if.c).

The two C files implement a reactive device-state monitor: they observe
ambient signals (display, battery, charger, tethering), derive boolean and
interval decisions from the current snapshot, and issue coalesced
asynchronous radio requests when a derived decision changes.  This file
embeds the decision rules and the per-session state machine of both
variants (DS and IF) and proves properties about them.

Transport model: radio_request_new returns a fresh handle (modelled by a
counter in the state), radio_request_drop cancels a request so that its
completion callback is never invoked afterwards, and a completion is
delivered only for a handle that is still the stored pending handle of its
kind.  Radio enums are modelled as small inductive types; only the
comparisons the C code performs matter.
-/

/-- MCE battery status levels from mce_battery.h, in declaration order:
UNKNOWN, EMPTY, LOW, OK, FULL.  Only the ordering matters (the code tests
status greater-or-equal MCE_BATTERY_OK), so status is a Nat. -/
def MCE_BATTERY_OK : Nat := 3

/-- MceBattery as seen by the plugin: validity flag plus status level. -/
structure MceBattery where
  valid : Bool
  status : Nat
deriving DecidableEq

/-- Charger state from mce_charger.h; the code only compares against
MCE_CHARGER_ON. -/
inductive MceChargerState
  | unknown
  | off
  | on
deriving DecidableEq

/-- MceCharger as seen by the plugin. -/
structure MceCharger where
  valid : Bool
  state : MceChargerState
deriving DecidableEq

/-- Display state from mce_display.h; the code only tests inequality with
MCE_DISPLAY_STATE_OFF. -/
inductive MceDisplayState
  | off
  | dim
  | on
deriving DecidableEq

/-- MceDisplay as seen by the plugin. -/
structure MceDisplay where
  valid : Bool
  state : MceDisplayState
deriving DecidableEq

/-- Connman (tethering observer) state: validity flag plus tethering flag. -/
structure BinderConnman where
  valid : Bool
  tethering : Bool
deriving DecidableEq

/-- binder_devmon_ds.c line 112: connman valid and tethering set. -/
def binder_devmon_ds_tethering_on (c : BinderConnman) : Bool :=
  c.valid && c.tethering

/-- binder_devmon_ds.c line 115: battery valid and status at least OK. -/
def binder_devmon_ds_battery_ok (b : MceBattery) : Bool :=
  b.valid && decide (MCE_BATTERY_OK ≤ b.status)

/-- binder_devmon_ds.c line 118: charger valid and state is ON. -/
def binder_devmon_ds_charging (c : MceCharger) : Bool :=
  c.valid && decide (c.state = MceChargerState.on)

/-- binder_devmon_ds.c line 121: display valid and state is not OFF. -/
def binder_devmon_ds_display_on (d : MceDisplay) : Bool :=
  d.valid && decide (d.state ≠ MceDisplayState.off)

/-- binder_devmon_if.c line 99: battery valid and status at least OK. -/
def binder_devmon_if_battery_ok (b : MceBattery) : Bool :=
  b.valid && decide (MCE_BATTERY_OK ≤ b.status)

/-- binder_devmon_if.c line 102: charger valid and state is ON. -/
def binder_devmon_if_charging (c : MceCharger) : Bool :=
  c.valid && decide (c.state = MceChargerState.on)

/-- binder_devmon_if.c line 105: display valid and state is not OFF. -/
def binder_devmon_if_display_on (d : MceDisplay) : Bool :=
  d.valid && decide (d.state ≠ MceDisplayState.off)

/-- The interval value chosen by
binder_devmon_ds_io_set_cell_info_update_interval (binder_devmon_ds.c
lines 246-257): the short interval when the display is on and the charger
is charging or the battery is ok, the long interval otherwise. -/
def binder_devmon_ds_cell_info_interval (d : MceDisplay) (b : MceBattery)
    (c : MceCharger) (shortMs longMs : Int) : Int :=
  if binder_devmon_ds_display_on d &&
      (binder_devmon_ds_charging c || binder_devmon_ds_battery_ok b) then
    shortMs
  else
    longMs

/-- The interval value chosen by
binder_devmon_if_io_set_cell_info_update_interval (binder_devmon_if.c
lines 184-194); the IF variant reads its cached display_on flag instead of
the display signal directly. -/
def binder_devmon_if_cell_info_interval (display_on : Bool) (b : MceBattery)
    (c : MceCharger) (shortMs longMs : Int) : Int :=
  if display_on &&
      (binder_devmon_if_charging c || binder_devmon_if_battery_ok b) then
    shortMs
  else
    longMs

/-- The low-data value computed at the top of
binder_devmon_ds_io_update_low_data (binder_devmon_ds.c lines 229-232):
no tethering, no charging, display not on. -/
def binder_devmon_ds_low_data_value (cn : BinderConnman) (c : MceCharger)
    (d : MceDisplay) : Bool :=
  !binder_devmon_ds_tethering_on cn &&
  !binder_devmon_ds_charging c &&
  !binder_devmon_ds_display_on d

/-- Battery states reported by the batman wrapper library
(get_battery_state). -/
inductive BatmanState
  | unknown
  | noBattery
  | charging
  | discharging
  | fullyCharged
deriving DecidableEq

/-- The integer value of each batman battery-state enumerator.  The C
header declares them without explicit values, so they are consecutive
naturals; the proofs only use that every value is nonnegative. -/
def batmanCode : BatmanState → Int
  | .unknown => 0
  | .charging => 1
  | .discharging => 2
  | .fullyCharged => 3
  | .noBattery => 4

/-- The low-data value computed by the DS fallback handler
handle_batman_inotify_events_ds (binder_devmon_ds.c line 367):
display == 0 and state == BATMAN_DISCHARGING. -/
def batman_low_data (screenYes : Bool) (bstate : BatmanState) : Bool :=
  !screenYes && decide (bstate = BatmanState.discharging)

/-- The charging value computed by the DS fallback handler
(binder_devmon_ds.c line 386): state is BATMAN_CHARGING or
BATMAN_FULLY_CHARGED. -/
def batman_charging (bstate : BatmanState) : Bool :=
  decide (bstate = BatmanState.charging) ||
  decide (bstate = BatmanState.fullyCharged)

/-- The interval chosen by the DS fallback handler (binder_devmon_ds.c
lines 399-401): short when display or charging, long otherwise. -/
def batman_cell_info_interval (screenYes charging : Bool)
    (shortMs longMs : Int) : Int :=
  if screenYes || charging then shortMs else longMs

/-- Transport transmit status (RADIO_TX_STATUS); the code only compares
against RADIO_TX_STATUS_OK. -/
inductive RadioTxStatus
  | ok
  | failed
  | timedOut
deriving DecidableEq

/-- Response identifiers the completion callbacks compare against
(RADIO_RESP_SEND_DEVICE_STATE, RADIO_RESP_SET_INDICATION_FILTER); any
other identifier is an unexpected response. -/
inductive RadioResp
  | sendDeviceState
  | setIndicationFilter
  | otherResp
deriving DecidableEq

/-- Radio-level error codes; the code only compares against
RADIO_ERROR_REQUEST_NOT_SUPPORTED. -/
inductive RadioError
  | noError
  | requestNotSupported
  | genericFailure
deriving DecidableEq

/-- The kinds of coalesced outbound requests the two variants issue. -/
inductive ReqKind
  | lowData
  | charging
  | indFilter
deriving DecidableEq

/-- Radio interface version as a Nat; the IF variant compares it with
RADIO_INTERFACE_1_2 and RADIO_INTERFACE_1_5. -/
def RADIO_INTERFACE_1_2 : Nat := 2

/-- Radio interface version constant RADIO_INTERFACE_1_5. -/
def RADIO_INTERFACE_1_5 : Nat := 5

/-- Request codes usable for setIndicationFilter, one per interface tier
(binder_devmon_if.c lines 161-172). -/
inductive FilterReq
  | setIndicationFilter
  | setIndicationFilter_1_2
  | setIndicationFilter_1_5
deriving DecidableEq

/-- Indication-filter payload values (RADIO_IND_FILTER_ALL and friends,
plus the DATA_CALL_DORMANCY fallback bit). -/
inductive FilterValue
  | all
  | all_1_2
  | all_1_5
  | dataCallDormancy
deriving DecidableEq

/-- Request code and payload chosen by
binder_devmon_if_io_set_indication_filter (binder_devmon_if.c lines
161-173) from the client interface version and the cached display_on
flag. -/
def binder_devmon_if_filter_choice (iface : Nat) (display_on : Bool) :
    FilterReq × FilterValue :=
  if iface < RADIO_INTERFACE_1_2 then
    (FilterReq.setIndicationFilter,
     if display_on then FilterValue.all else FilterValue.dataCallDormancy)
  else if iface < RADIO_INTERFACE_1_5 then
    (FilterReq.setIndicationFilter_1_2,
     if display_on then FilterValue.all_1_2 else FilterValue.dataCallDormancy)
  else
    (FilterReq.setIndicationFilter_1_5,
     if display_on then FilterValue.all_1_5 else FilterValue.dataCallDormancy)

/-- Observable actions a step of either variant can emit towards its
collaborators: dropping a possibly-absent pending request handle
(radio_request_drop), sending a device-state request, sending an
indication-filter request, and setting the cell-info update interval. -/
inductive DevAction
  | drop : Option Nat → DevAction
  | send : ReqKind → Bool → Nat → DevAction
  | sendFilter : FilterReq → FilterValue → Nat → DevAction
  | setInterval : Int → DevAction
deriving DecidableEq

/-- Whether an action is a transport send of the given request kind. -/
def DevAction.isSendKind (k : ReqKind) : DevAction → Bool
  | .send k' _ _ => decide (k' = k)
  | .sendFilter _ _ _ => decide (k = ReqKind.indFilter)
  | _ => false

/-- Per-session state of the DS variant (struct binder_devmon_ds_io,
binder_devmon_ds.c lines 77-101).  Pending radio requests are modelled by
their handles; nextHandle is the fresh-handle counter of the transport. -/
structure DsIoState where
  connman : BinderConnman
  battery : MceBattery
  charger : MceCharger
  display : MceDisplay
  low_data_req : Option Nat
  charging_req : Option Nat
  low_data : Bool
  charging : Bool
  low_data_supported : Bool
  charging_supported : Bool
  cell_info_interval_short_ms : Int
  cell_info_interval_long_ms : Int
  nextHandle : Nat
deriving DecidableEq

/-- The store-and-send block shared by binder_devmon_ds_io_update_low_data
(binder_devmon_ds.c lines 234-243) and the low-data block of
handle_batman_inotify_events_ds (lines 368-383), which duplicate it
verbatim in C: when the new value differs from the stored one, store it
and, when the kind is still supported, drop the pending low-data request
and send a new one. -/
def ds_push_low_data (s : DsIoState) (v : Bool) : DsIoState × List DevAction :=
  if s.low_data = v then
    (s, [])
  else if s.low_data_supported then
    ({ s with low_data := v, low_data_req := some s.nextHandle,
              nextHandle := s.nextHandle + 1 },
     [DevAction.drop s.low_data_req, DevAction.send ReqKind.lowData v s.nextHandle])
  else
    ({ s with low_data := v }, [])

/-- The store-and-send block shared by binder_devmon_ds_io_update_charging
(binder_devmon_ds.c lines 212-221) and the charging block of
handle_batman_inotify_events_ds (lines 386-397). -/
def ds_push_charging (s : DsIoState) (v : Bool) : DsIoState × List DevAction :=
  if s.charging = v then
    (s, [])
  else if s.charging_supported then
    ({ s with charging := v, charging_req := some s.nextHandle,
              nextHandle := s.nextHandle + 1 },
     [DevAction.drop s.charging_req, DevAction.send ReqKind.charging v s.nextHandle])
  else
    ({ s with charging := v }, [])

/-- binder_devmon_ds_io_update_low_data (binder_devmon_ds.c lines
224-244): recompute the low-data value from the signals and push it. -/
def binder_devmon_ds_io_update_low_data (s : DsIoState) :
    DsIoState × List DevAction :=
  ds_push_low_data s (binder_devmon_ds_low_data_value s.connman s.charger s.display)

/-- binder_devmon_ds_io_update_charging (binder_devmon_ds.c lines
205-222): recompute the charging value from the charger signal and push
it. -/
def binder_devmon_ds_io_update_charging (s : DsIoState) :
    DsIoState × List DevAction :=
  ds_push_charging s (binder_devmon_ds_charging s.charger)

/-- binder_devmon_ds_io_set_cell_info_update_interval (binder_devmon_ds.c
lines 246-257): unconditionally apply the interval derived from the
current signals. -/
def binder_devmon_ds_io_set_cell_info_interval (s : DsIoState) :
    List DevAction :=
  [DevAction.setInterval (binder_devmon_ds_cell_info_interval s.display
      s.battery s.charger s.cell_info_interval_short_ms
      s.cell_info_interval_long_ms)]

/-- binder_devmon_ds_io_low_data_state_sent (binder_devmon_ds.c lines
124-151): clear the pending handle; on a transmitted completion, flag the
kind unsupported when the error is REQUEST_NOT_SUPPORTED, and also when
the response identifier is unexpected. -/
def binder_devmon_ds_io_low_data_state_sent (s : DsIoState)
    (status : RadioTxStatus) (resp : RadioResp) (error : RadioError) :
    DsIoState :=
  let s1 := { s with low_data_req := none }
  if status = RadioTxStatus.ok then
    if resp = RadioResp.sendDeviceState then
      if error = RadioError.requestNotSupported then
        { s1 with low_data_supported := false }
      else s1
    else
      { s1 with low_data_supported := false }
  else s1

/-- binder_devmon_ds_io_charging_state_sent (binder_devmon_ds.c lines
153-180): same shape as the low-data completion, for the charging kind. -/
def binder_devmon_ds_io_charging_state_sent (s : DsIoState)
    (status : RadioTxStatus) (resp : RadioResp) (error : RadioError) :
    DsIoState :=
  let s1 := { s with charging_req := none }
  if status = RadioTxStatus.ok then
    if resp = RadioResp.sendDeviceState then
      if error = RadioError.requestNotSupported then
        { s1 with charging_supported := false }
      else s1
    else
      { s1 with charging_supported := false }
  else s1

/-- handle_batman_inotify_events_ds (binder_devmon_ds.c lines 303-408),
decision part: derive low-data and charging from the screen file and the
batman battery state, push each through the same stored-value edge filter
and supported gating as the event-driven updates, then unconditionally
apply the fallback interval. -/
def handle_batman_inotify_events_ds (s : DsIoState) (screenYes : Bool)
    (bstate : BatmanState) : DsIoState × List DevAction :=
  let ch := batman_charging bstate
  let p1 := ds_push_low_data s (batman_low_data screenYes bstate)
  let p2 := ds_push_charging p1.1 ch
  (p2.1, p1.2 ++ p2.2 ++
    [DevAction.setInterval (batman_cell_info_interval screenYes ch
        s.cell_info_interval_short_ms s.cell_info_interval_long_ms)])

/-- Events delivered to a DS session: a signal change (the callback wired
to it in binder_devmon_ds_start_io runs), a fallback poll, or a request
completion for a given handle.  A completion whose handle is no longer the
stored pending handle of its kind was dropped via radio_request_drop, so
the transport never invokes its callback. -/
inductive DsEvent
  | connmanChanged : BinderConnman → DsEvent
  | batteryChanged : MceBattery → DsEvent
  | chargerChanged : MceCharger → DsEvent
  | displayChanged : MceDisplay → DsEvent
  | batmanPoll : Bool → BatmanState → DsEvent
  | complete : Nat → RadioTxStatus → RadioResp → RadioError → DsEvent
deriving DecidableEq

/-- One event-loop turn of a DS session, following the callback wiring of
binder_devmon_ds_start_io (binder_devmon_ds.c lines 506-549):
connman events run update_low_data; battery events run set_cell_info;
display events run update_low_data then set_cell_info; charger events run
update_low_data, update_charging, then set_cell_info. -/
def dsStep (s : DsIoState) : DsEvent → DsIoState × List DevAction
  | .connmanChanged cn =>
      binder_devmon_ds_io_update_low_data { s with connman := cn }
  | .batteryChanged b =>
      let s1 := { s with battery := b }
      (s1, binder_devmon_ds_io_set_cell_info_interval s1)
  | .chargerChanged c =>
      let s1 := { s with charger := c }
      let p1 := binder_devmon_ds_io_update_low_data s1
      let p2 := binder_devmon_ds_io_update_charging p1.1
      (p2.1, p1.2 ++ p2.2 ++ binder_devmon_ds_io_set_cell_info_interval p2.1)
  | .displayChanged d =>
      let s1 := { s with display := d }
      let p1 := binder_devmon_ds_io_update_low_data s1
      (p1.1, p1.2 ++ binder_devmon_ds_io_set_cell_info_interval p1.1)
  | .batmanPoll screenYes bstate =>
      handle_batman_inotify_events_ds s screenYes bstate
  | .complete h status resp error =>
      if s.low_data_req = some h then
        (binder_devmon_ds_io_low_data_state_sent s status resp error, [])
      else if s.charging_req = some h then
        (binder_devmon_ds_io_charging_state_sent s status resp error, [])
      else
        (s, [])

/-- Run a DS session over a list of events, accumulating emitted actions. -/
def dsRun (s : DsIoState) : List DsEvent → DsIoState × List DevAction
  | [] => (s, [])
  | e :: es =>
      let p1 := dsStep s e
      let p2 := dsRun p1.1 es
      (p2.1, p1.2 ++ p2.2)

/-- binder_devmon_ds_start_io (binder_devmon_ds.c lines 490-552), decision
part: the io struct is allocated zeroed (g_new0), so low_data and charging
start false and the pending handles start empty; both supported flags are
set to TRUE; then update_low_data, update_charging and
set_cell_info_update_interval run once on the initial signals.  The
initial synchronous fallback poll of binder_devmon_ds_io_init_batman_watch
depends on external file state and is modelled as a separate batmanPoll
event. -/
def binder_devmon_ds_start_io (cn : BinderConnman) (b : MceBattery)
    (c : MceCharger) (d : MceDisplay) (shortMs longMs : Int) :
    DsIoState × List DevAction :=
  let s0 : DsIoState :=
    { connman := cn, battery := b, charger := c, display := d,
      low_data_req := none, charging_req := none,
      low_data := false, charging := false,
      low_data_supported := true, charging_supported := true,
      cell_info_interval_short_ms := shortMs,
      cell_info_interval_long_ms := longMs,
      nextHandle := 0 }
  let p1 := binder_devmon_ds_io_update_low_data s0
  let p2 := binder_devmon_ds_io_update_charging p1.1
  (p2.1, p1.2 ++ p2.2 ++ binder_devmon_ds_io_set_cell_info_interval p2.1)

/-- Per-session state of the IF variant (struct binder_devmon_if_io,
binder_devmon_if.c lines 69-88). -/
structure IfIoState where
  battery : MceBattery
  charger : MceCharger
  display : MceDisplay
  iface : Nat
  req : Option Nat
  display_on : Bool
  ind_filter_supported : Bool
  cell_info_interval_short_ms : Int
  cell_info_interval_long_ms : Int
  nextHandle : Nat
deriving DecidableEq

/-- binder_devmon_if_io_set_indication_filter (binder_devmon_if.c lines
137-182): when the kind is still supported, choose code and payload from
the interface version and the cached display_on flag, drop the pending
request and send a new one; otherwise do nothing. -/
def binder_devmon_if_io_set_indication_filter (s : IfIoState) :
    IfIoState × List DevAction :=
  if s.ind_filter_supported then
    let cv := binder_devmon_if_filter_choice s.iface s.display_on
    ({ s with req := some s.nextHandle, nextHandle := s.nextHandle + 1 },
     [DevAction.drop s.req, DevAction.sendFilter cv.1 cv.2 s.nextHandle])
  else
    (s, [])

/-- binder_devmon_if_io_set_cell_info_update_interval (binder_devmon_if.c
lines 184-194): unconditionally apply the interval derived from the cached
display_on flag and the battery and charger signals. -/
def binder_devmon_if_io_set_cell_info_interval (s : IfIoState) :
    List DevAction :=
  [DevAction.setInterval (binder_devmon_if_cell_info_interval s.display_on
      s.battery s.charger s.cell_info_interval_short_ms
      s.cell_info_interval_long_ms)]

/-- binder_devmon_if_io_indication_filter_sent (binder_devmon_if.c lines
108-135): clear the pending handle; flag the kind unsupported only when
the completion carries the expected response with
RADIO_ERROR_REQUEST_NOT_SUPPORTED; an unexpected response identifier is
only logged. -/
def binder_devmon_if_io_indication_filter_sent (s : IfIoState)
    (status : RadioTxStatus) (resp : RadioResp) (error : RadioError) :
    IfIoState :=
  let s1 := { s with req := none }
  if status = RadioTxStatus.ok then
    if resp = RadioResp.setIndicationFilter then
      if error = RadioError.requestNotSupported then
        { s1 with ind_filter_supported := false }
      else s1
    else s1
  else s1

/-- handle_batman_inotify_events_if (binder_devmon_if.c lines 229-303),
decision part.  The handler reads the screen file into display, queries
get_battery_state into the local variable named state, but computes
charging from the distinct local variable battery_state, which is declared
as -1 and never assigned; the battery-state query result is only logged.
The handler then applies the interval; it never touches the request or
filter state. -/
def handle_batman_inotify_events_if (s : IfIoState) (screenYes : Bool)
    (bstate : BatmanState) : IfIoState × List DevAction :=
  let display := screenYes
  let state := bstate
  let battery_state : Int := -1
  let charging := decide (battery_state = batmanCode BatmanState.charging) ||
                  decide (battery_state = batmanCode BatmanState.fullyCharged)
  let _ := state
  (s, [DevAction.setInterval
        (if display || charging then s.cell_info_interval_short_ms
         else s.cell_info_interval_long_ms)])

/-- Events delivered to an IF session, following the callback wiring of
binder_devmon_if_start_io (binder_devmon_if.c lines 396-419). -/
inductive IfEvent
  | batteryChanged : MceBattery → IfEvent
  | chargerChanged : MceCharger → IfEvent
  | displayChanged : MceDisplay → IfEvent
  | batmanPoll : Bool → BatmanState → IfEvent
  | complete : Nat → RadioTxStatus → RadioResp → RadioError → IfEvent
deriving DecidableEq

/-- One event-loop turn of an IF session: battery and charger events run
set_cell_info (binder_devmon_if.c lines 196-211); display events update
the cached display_on flag and, only when it changed, set the indication
filter and the interval (lines 213-227); completions for a dropped handle
are never delivered by the transport. -/
def ifStep (s : IfIoState) : IfEvent → IfIoState × List DevAction
  | .batteryChanged b =>
      let s1 := { s with battery := b }
      (s1, binder_devmon_if_io_set_cell_info_interval s1)
  | .chargerChanged c =>
      let s1 := { s with charger := c }
      (s1, binder_devmon_if_io_set_cell_info_interval s1)
  | .displayChanged d =>
      let s1 := { s with display := d }
      let don := binder_devmon_if_display_on d
      if s1.display_on = don then
        (s1, [])
      else
        let p := binder_devmon_if_io_set_indication_filter
          { s1 with display_on := don }
        (p.1, p.2 ++ binder_devmon_if_io_set_cell_info_interval p.1)
  | .batmanPoll screenYes bstate =>
      handle_batman_inotify_events_if s screenYes bstate
  | .complete h status resp error =>
      if s.req = some h then
        (binder_devmon_if_io_indication_filter_sent s status resp error, [])
      else
        (s, [])

/-- Run an IF session over a list of events, accumulating emitted actions. -/
def ifRun (s : IfIoState) : List IfEvent → IfIoState × List DevAction
  | [] => (s, [])
  | e :: es =>
      let p1 := ifStep s e
      let p2 := ifRun p1.1 es
      (p2.1, p1.2 ++ p2.2)

/-- binder_devmon_if_start_io (binder_devmon_if.c lines 381-432), decision
part: the io struct is allocated zeroed, ind_filter_supported is set to
TRUE, display_on is initialized from the display signal (line 413), then
set_indication_filter and set_cell_info_update_interval run once.  The
initial synchronous fallback poll is modelled as a separate batmanPoll
event. -/
def binder_devmon_if_start_io (b : MceBattery) (c : MceCharger)
    (d : MceDisplay) (iface : Nat) (shortMs longMs : Int) :
    IfIoState × List DevAction :=
  let s0 : IfIoState :=
    { battery := b, charger := c, display := d, iface := iface,
      req := none,
      display_on := binder_devmon_if_display_on d,
      ind_filter_supported := true,
      cell_info_interval_short_ms := shortMs,
      cell_info_interval_long_ms := longMs,
      nextHandle := 0 }
  let p := binder_devmon_if_io_set_indication_filter s0
  (p.1, p.2 ++ binder_devmon_if_io_set_cell_info_interval p.1)

/-- Helper: with distinct short and long values, a two-way interval choice
equals the short value exactly when its condition holds. -/
theorem ite_interval_eq_short_iff (cond : Bool) (shortMs longMs : Int)
    (hne : shortMs ≠ longMs) :
    ((if cond then shortMs else longMs) = shortMs) ↔ cond = true := by
  cases cond
  · simp [Ne.symm hne]
  · simp

/-- C1: for every Signal snapshot the cell-info poll interval decision is
Short exactly when the display signal is valid and on and the charger
signal is valid and on or the battery signal is valid with status at least
OK, in both the DS and the IF variant; and with every signal invalid the
decision is Long. -/
theorem C1_poll_interval_class (d : MceDisplay) (b : MceBattery)
    (c : MceCharger) (shortMs longMs : Int) (hne : shortMs ≠ longMs) :
    ((binder_devmon_ds_cell_info_interval d b c shortMs longMs = shortMs ↔
      ((d.valid = true ∧ d.state ≠ MceDisplayState.off) ∧
        ((c.valid = true ∧ c.state = MceChargerState.on) ∨
         (b.valid = true ∧ MCE_BATTERY_OK ≤ b.status)))) ∧
     (binder_devmon_if_cell_info_interval (binder_devmon_if_display_on d)
        b c shortMs longMs = shortMs ↔
      ((d.valid = true ∧ d.state ≠ MceDisplayState.off) ∧
        ((c.valid = true ∧ c.state = MceChargerState.on) ∨
         (b.valid = true ∧ MCE_BATTERY_OK ≤ b.status))))) ∧
    binder_devmon_ds_cell_info_interval ⟨false, d.state⟩ ⟨false, b.status⟩
      ⟨false, c.state⟩ shortMs longMs = longMs := by
  refine ⟨⟨?_, ?_⟩, ?_⟩
  · rw [binder_devmon_ds_cell_info_interval, ite_interval_eq_short_iff _ _ _ hne]
    simp [binder_devmon_ds_display_on, binder_devmon_ds_charging,
          binder_devmon_ds_battery_ok]
  · rw [binder_devmon_if_cell_info_interval, ite_interval_eq_short_iff _ _ _ hne]
    simp [binder_devmon_if_display_on, binder_devmon_if_charging,
          binder_devmon_if_battery_ok]
  · simp [binder_devmon_ds_cell_info_interval, binder_devmon_ds_display_on]

/-- Witness for C1 at a concrete snapshot: display valid and on, charger
valid and on, battery invalid, with intervals 1 and 2. -/
theorem C1_poll_interval_class_witness :
    (1 : Int) ≠ 2 ∧
    ((binder_devmon_ds_cell_info_interval ⟨true, MceDisplayState.on⟩
        ⟨false, 0⟩ ⟨true, MceChargerState.on⟩ 1 2 = 1 ↔
      (((true : Bool) = true ∧ MceDisplayState.on ≠ MceDisplayState.off) ∧
        (((true : Bool) = true ∧ MceChargerState.on = MceChargerState.on) ∨
         ((false : Bool) = true ∧ MCE_BATTERY_OK ≤ 0)))) ∧
     (binder_devmon_if_cell_info_interval
        (binder_devmon_if_display_on ⟨true, MceDisplayState.on⟩)
        ⟨false, 0⟩ ⟨true, MceChargerState.on⟩ 1 2 = 1 ↔
      (((true : Bool) = true ∧ MceDisplayState.on ≠ MceDisplayState.off) ∧
        (((true : Bool) = true ∧ MceChargerState.on = MceChargerState.on) ∨
         ((false : Bool) = true ∧ MCE_BATTERY_OK ≤ 0))))) ∧
    binder_devmon_ds_cell_info_interval ⟨false, MceDisplayState.on⟩ ⟨false, 0⟩
      ⟨false, MceChargerState.on⟩ 1 2 = 2 :=
  ⟨by decide,
   C1_poll_interval_class ⟨true, MceDisplayState.on⟩ ⟨false, 0⟩
     ⟨true, MceChargerState.on⟩ 1 2 (by decide)⟩

/-- C2: the low-data value of the DS primary path is true exactly when
tethering, charger and display are all off, a signal with valid false
counting as off. -/
theorem C2_low_data_expected (cn : BinderConnman) (c : MceCharger)
    (d : MceDisplay) :
    binder_devmon_ds_low_data_value cn c d = true ↔
      (¬(cn.valid = true ∧ cn.tethering = true) ∧
       ¬(c.valid = true ∧ c.state = MceChargerState.on) ∧
       ¬(d.valid = true ∧ d.state ≠ MceDisplayState.off)) := by
  obtain ⟨a, t⟩ := cn
  obtain ⟨cv, cs⟩ := c
  obtain ⟨dv, ds⟩ := d
  cases a <;> cases t <;> cases cv <;> cases cs <;> cases dv <;> cases ds <;>
    decide

/-- C10: the IF fallback poll handler leaves the session state unchanged
and chooses the short interval exactly when the screen file reads as on,
for every battery state, because its charging test reads the local
battery_state variable that stays -1. -/
theorem C10_if_fallback_charging_dead (s : IfIoState) (screenYes : Bool)
    (bstate : BatmanState) :
    handle_batman_inotify_events_if s screenYes bstate =
      (s, [DevAction.setInterval
            (if screenYes then s.cell_info_interval_short_ms
             else s.cell_info_interval_long_ms)]) := by
  cases screenYes <;>
    simp [handle_batman_inotify_events_if, batmanCode]

/-- A sample DS session state with no pending requests, used to witness
theorems with hypotheses. -/
def dsSample : DsIoState :=
  { connman := ⟨false, false⟩, battery := ⟨false, 0⟩,
    charger := ⟨false, MceChargerState.unknown⟩,
    display := ⟨false, MceDisplayState.off⟩,
    low_data_req := none, charging_req := none,
    low_data := false, charging := false,
    low_data_supported := true, charging_supported := true,
    cell_info_interval_short_ms := 1, cell_info_interval_long_ms := 2,
    nextHandle := 0 }

/-- A sample IF session state with no pending request, used to witness
theorems with hypotheses. -/
def ifSample : IfIoState :=
  { battery := ⟨false, 0⟩, charger := ⟨false, MceChargerState.unknown⟩,
    display := ⟨false, MceDisplayState.off⟩, iface := 0,
    req := none, display_on := false, ind_filter_supported := true,
    cell_info_interval_short_ms := 1, cell_info_interval_long_ms := 2,
    nextHandle := 0 }

/-- C9: each event-driven update emits a transport send exactly when the
kind is still supported and the newly computed value differs from the
stored last-emitted one, while the DS interval path re-applies the
computed interval unconditionally. -/
theorem C9_edge_triggered_idempotence (s : DsIoState) :
    ((binder_devmon_ds_io_update_low_data s).2.any
        (DevAction.isSendKind ReqKind.lowData) =
      (s.low_data_supported &&
        decide (binder_devmon_ds_low_data_value s.connman s.charger s.display ≠
          s.low_data))) ∧
    ((binder_devmon_ds_io_update_charging s).2.any
        (DevAction.isSendKind ReqKind.charging) =
      (s.charging_supported &&
        decide (binder_devmon_ds_charging s.charger ≠ s.charging))) ∧
    binder_devmon_ds_io_set_cell_info_interval s =
      [DevAction.setInterval (binder_devmon_ds_cell_info_interval s.display
          s.battery s.charger s.cell_info_interval_short_ms
          s.cell_info_interval_long_ms)] := by
  refine ⟨?_, ?_, rfl⟩
  · unfold binder_devmon_ds_io_update_low_data ds_push_low_data
    by_cases h : s.low_data =
        binder_devmon_ds_low_data_value s.connman s.charger s.display
    · simp [← h]
    · cases hs : s.low_data_supported <;>
        simp [h, hs, DevAction.isSendKind, Ne.symm h]
  · unfold binder_devmon_ds_io_update_charging ds_push_charging
    by_cases h : s.charging = binder_devmon_ds_charging s.charger
    · simp [← h]
    · cases hs : s.charging_supported <;>
        simp [h, hs, DevAction.isSendKind, Ne.symm h]

/-- C8: each submit path either leaves the stored pending handle alone and
sends nothing, or emits exactly a drop of the previously stored pending
handle immediately followed by the new send, and stores the new send's
handle; each kind keeps at most one pending handle (a single optional
slot). -/
theorem C8_at_most_one_in_flight (s : DsIoState) (t : IfIoState) :
    (((binder_devmon_ds_io_update_low_data s).2 = [] ∧
        (binder_devmon_ds_io_update_low_data s).1.low_data_req =
          s.low_data_req) ∨
      ((binder_devmon_ds_io_update_low_data s).2 =
          [DevAction.drop s.low_data_req,
           DevAction.send ReqKind.lowData
             (binder_devmon_ds_low_data_value s.connman s.charger s.display)
             s.nextHandle] ∧
        (binder_devmon_ds_io_update_low_data s).1.low_data_req =
          some s.nextHandle)) ∧
    (((binder_devmon_ds_io_update_charging s).2 = [] ∧
        (binder_devmon_ds_io_update_charging s).1.charging_req =
          s.charging_req) ∨
      ((binder_devmon_ds_io_update_charging s).2 =
          [DevAction.drop s.charging_req,
           DevAction.send ReqKind.charging
             (binder_devmon_ds_charging s.charger) s.nextHandle] ∧
        (binder_devmon_ds_io_update_charging s).1.charging_req =
          some s.nextHandle)) ∧
    (((binder_devmon_if_io_set_indication_filter t).2 = [] ∧
        (binder_devmon_if_io_set_indication_filter t).1.req = t.req) ∨
      ((binder_devmon_if_io_set_indication_filter t).2 =
          [DevAction.drop t.req,
           DevAction.sendFilter
             (binder_devmon_if_filter_choice t.iface t.display_on).1
             (binder_devmon_if_filter_choice t.iface t.display_on).2
             t.nextHandle] ∧
        (binder_devmon_if_io_set_indication_filter t).1.req =
          some t.nextHandle)) := by
  refine ⟨?_, ?_, ?_⟩
  · unfold binder_devmon_ds_io_update_low_data ds_push_low_data
    by_cases h : s.low_data =
        binder_devmon_ds_low_data_value s.connman s.charger s.display
    · exact Or.inl (by simp [h])
    · cases hs : s.low_data_supported
      · exact Or.inl (by simp [h, hs])
      · exact Or.inr (by simp [h, hs])
  · unfold binder_devmon_ds_io_update_charging ds_push_charging
    by_cases h : s.charging = binder_devmon_ds_charging s.charger
    · exact Or.inl (by simp [h])
    · cases hs : s.charging_supported
      · exact Or.inl (by simp [h, hs])
      · exact Or.inr (by simp [h, hs])
  · unfold binder_devmon_if_io_set_indication_filter
    cases hs : t.ind_filter_supported
    · exact Or.inl (by simp [hs])
    · exact Or.inr (by simp [hs])

/-- C5: a completion whose handle is not the currently stored pending
handle of any kind was dropped, so its delivery changes nothing: the state
is untouched and no action is emitted, in both variants. -/
theorem C5_stale_completion_ignored (s : DsIoState) (t : IfIoState)
    (h : Nat) (st : RadioTxStatus) (rp : RadioResp) (er : RadioError)
    (h1 : s.low_data_req ≠ some h) (h2 : s.charging_req ≠ some h)
    (h3 : t.req ≠ some h) :
    dsStep s (DsEvent.complete h st rp er) = (s, []) ∧
    ifStep t (IfEvent.complete h st rp er) = (t, []) := by
  constructor
  · simp [dsStep, h1, h2]
  · simp [ifStep, h3]

/-- Witness for C5: the sample states have no pending handle, so handle 0
is stale and its completion is a no-op. -/
theorem C5_stale_completion_ignored_witness :
    dsSample.low_data_req ≠ some 0 ∧ dsSample.charging_req ≠ some 0 ∧
    ifSample.req ≠ some 0 ∧
    (dsStep dsSample (DsEvent.complete 0 RadioTxStatus.ok
        RadioResp.sendDeviceState RadioError.noError) = (dsSample, []) ∧
     ifStep ifSample (IfEvent.complete 0 RadioTxStatus.ok
        RadioResp.sendDeviceState RadioError.noError) = (ifSample, [])) :=
  ⟨by decide, by decide, by decide,
   C5_stale_completion_ignored dsSample ifSample 0 RadioTxStatus.ok
     RadioResp.sendDeviceState RadioError.noError
     (by decide) (by decide) (by decide)⟩

/-- With the low-data kind unsupported, a low-data push changes no
supported flag and emits nothing. -/
theorem ds_push_low_data_not_supported (s : DsIoState) (v : Bool)
    (hs : s.low_data_supported = false) :
    (ds_push_low_data s v).1.low_data_supported = false ∧
    (ds_push_low_data s v).2 = [] := by
  unfold ds_push_low_data
  by_cases h : s.low_data = v <;> simp [h, hs]

/-- With the charging kind unsupported, a charging push changes no
supported flag and emits nothing. -/
theorem ds_push_charging_not_supported (s : DsIoState) (v : Bool)
    (hs : s.charging_supported = false) :
    (ds_push_charging s v).1.charging_supported = false ∧
    (ds_push_charging s v).2 = [] := by
  unfold ds_push_charging
  by_cases h : s.charging = v <;> simp [h, hs]

/-- A charging push preserves the low-data supported flag and never sends
a low-data request. -/
theorem ds_push_charging_low_data_side (s : DsIoState) (v : Bool) :
    (ds_push_charging s v).1.low_data_supported = s.low_data_supported ∧
    ∀ a ∈ (ds_push_charging s v).2,
      DevAction.isSendKind ReqKind.lowData a = false := by
  unfold ds_push_charging
  by_cases h : s.charging = v
  · simp [h]
  · cases hs : s.charging_supported <;>
      simp [h, hs, DevAction.isSendKind]

/-- A low-data push preserves the charging supported flag and never sends
a charging request. -/
theorem ds_push_low_data_charging_side (s : DsIoState) (v : Bool) :
    (ds_push_low_data s v).1.charging_supported = s.charging_supported ∧
    ∀ a ∈ (ds_push_low_data s v).2,
      DevAction.isSendKind ReqKind.charging a = false := by
  unfold ds_push_low_data
  by_cases h : s.low_data = v
  · simp [h]
  · cases hs : s.low_data_supported <;>
      simp [h, hs, DevAction.isSendKind]

/-- The low-data completion callback never turns the low-data supported
flag back on, and it preserves the charging supported flag. -/
theorem ds_low_data_sent_flags (s : DsIoState) (st : RadioTxStatus)
    (rp : RadioResp) (er : RadioError) :
    (s.low_data_supported = false →
      (binder_devmon_ds_io_low_data_state_sent s st rp er).low_data_supported
        = false) ∧
    (binder_devmon_ds_io_low_data_state_sent s st rp er).charging_supported
      = s.charging_supported := by
  unfold binder_devmon_ds_io_low_data_state_sent
  constructor
  · intro hs
    split_ifs <;> simp [hs]
  · split_ifs <;> simp

/-- The charging completion callback never turns the charging supported
flag back on, and it preserves the low-data supported flag. -/
theorem ds_charging_sent_flags (s : DsIoState) (st : RadioTxStatus)
    (rp : RadioResp) (er : RadioError) :
    (s.charging_supported = false →
      (binder_devmon_ds_io_charging_state_sent s st rp er).charging_supported
        = false) ∧
    (binder_devmon_ds_io_charging_state_sent s st rp er).low_data_supported
      = s.low_data_supported := by
  unfold binder_devmon_ds_io_charging_state_sent
  constructor
  · intro hs
    split_ifs <;> simp [hs]
  · split_ifs <;> simp

/-- Once the low-data kind is unsupported, one DS step keeps it
unsupported and emits no low-data send. -/
theorem dsStep_low_data_unsupported (s : DsIoState) (e : DsEvent)
    (hs : s.low_data_supported = false) :
    (dsStep s e).1.low_data_supported = false ∧
    ∀ a ∈ (dsStep s e).2, DevAction.isSendKind ReqKind.lowData a = false := by
  cases e with
  | connmanChanged cn =>
      obtain ⟨h1, h2⟩ := ds_push_low_data_not_supported { s with connman := cn }
        (binder_devmon_ds_low_data_value cn s.charger s.display) hs
      exact ⟨h1, by simp only [dsStep, binder_devmon_ds_io_update_low_data] at *
                    simp [h2]⟩
  | batteryChanged b =>
      exact ⟨hs, by simp [dsStep, binder_devmon_ds_io_set_cell_info_interval,
        DevAction.isSendKind]⟩
  | chargerChanged c =>
      obtain ⟨h1, h2⟩ := ds_push_low_data_not_supported { s with charger := c }
        (binder_devmon_ds_low_data_value s.connman c s.display) hs
      constructor
      · simp only [dsStep, binder_devmon_ds_io_update_low_data,
          binder_devmon_ds_io_update_charging]
        rw [(ds_push_charging_low_data_side _ _).1]
        exact h1
      · intro a ha
        simp only [dsStep, binder_devmon_ds_io_update_low_data,
          binder_devmon_ds_io_update_charging,
          binder_devmon_ds_io_set_cell_info_interval, h2,
          List.nil_append, List.mem_append, List.mem_singleton] at ha
        rcases ha with ha | ha
        · exact (ds_push_charging_low_data_side _ _).2 a ha
        · simp [ha, DevAction.isSendKind]
  | displayChanged d =>
      obtain ⟨h1, h2⟩ := ds_push_low_data_not_supported { s with display := d }
        (binder_devmon_ds_low_data_value s.connman s.charger d) hs
      constructor
      · simpa only [dsStep, binder_devmon_ds_io_update_low_data] using h1
      · intro a ha
        simp only [dsStep, binder_devmon_ds_io_update_low_data,
          binder_devmon_ds_io_set_cell_info_interval, h2,
          List.nil_append, List.mem_singleton] at ha
        simp [ha, DevAction.isSendKind]
  | batmanPoll sc bs =>
      obtain ⟨h1, h2⟩ := ds_push_low_data_not_supported s
        (batman_low_data sc bs) hs
      obtain ⟨h3, h4⟩ := ds_push_charging_low_data_side
        (ds_push_low_data s (batman_low_data sc bs)).1 (batman_charging bs)
      constructor
      · simp only [dsStep, handle_batman_inotify_events_ds]
        rw [h3, h1]
      · intro a ha
        simp only [dsStep, handle_batman_inotify_events_ds, h2,
          List.nil_append, List.mem_append, List.mem_singleton] at ha
        rcases ha with ha | ha
        · exact h4 a ha
        · simp [ha, DevAction.isSendKind]
  | complete h st rp er =>
      refine ⟨?_, ?_⟩
      · by_cases h1 : s.low_data_req = some h
        · simpa [dsStep, h1] using (ds_low_data_sent_flags s st rp er).1 hs
        · by_cases h2 : s.charging_req = some h
          · have hcf := (ds_charging_sent_flags s st rp er).2
            simp [dsStep, h1, h2, hcf, hs]
          · simp [dsStep, h1, h2, hs]
      · intro a ha
        by_cases h1 : s.low_data_req = some h
        · simp [dsStep, h1] at ha
        · by_cases h2 : s.charging_req = some h
          · simp [dsStep, h1, h2] at ha
          · simp [dsStep, h1, h2] at ha

/-- A low-data push never changes the low-data supported flag. -/
theorem ds_push_low_data_flag (s : DsIoState) (v : Bool) :
    (ds_push_low_data s v).1.low_data_supported = s.low_data_supported := by
  unfold ds_push_low_data
  by_cases h : s.low_data = v
  · simp [h]
  · cases hs : s.low_data_supported <;> simp [h, hs]

/-- A charging push never changes the charging supported flag. -/
theorem ds_push_charging_flag (s : DsIoState) (v : Bool) :
    (ds_push_charging s v).1.charging_supported = s.charging_supported := by
  unfold ds_push_charging
  by_cases h : s.charging = v
  · simp [h]
  · cases hs : s.charging_supported <;> simp [h, hs]

/-- Once the charging kind is unsupported, one DS step keeps it
unsupported and emits no charging send. -/
theorem dsStep_charging_unsupported (s : DsIoState) (e : DsEvent)
    (hs : s.charging_supported = false) :
    (dsStep s e).1.charging_supported = false ∧
    ∀ a ∈ (dsStep s e).2, DevAction.isSendKind ReqKind.charging a = false := by
  cases e with
  | connmanChanged cn =>
      constructor
      · simp only [dsStep, binder_devmon_ds_io_update_low_data]
        rw [(ds_push_low_data_charging_side _ _).1]
        exact hs
      · intro a ha
        simp only [dsStep, binder_devmon_ds_io_update_low_data] at ha
        exact (ds_push_low_data_charging_side _ _).2 a ha
  | batteryChanged b =>
      exact ⟨hs, by simp [dsStep, binder_devmon_ds_io_set_cell_info_interval,
        DevAction.isSendKind]⟩
  | chargerChanged c =>
      have hX : (ds_push_low_data { s with charger := c }
          (binder_devmon_ds_low_data_value s.connman c
            s.display)).1.charging_supported = false := by
        rw [(ds_push_low_data_charging_side _ _).1]
        exact hs
      constructor
      · simp only [dsStep, binder_devmon_ds_io_update_low_data,
          binder_devmon_ds_io_update_charging]
        exact (ds_push_charging_not_supported _ _ hX).1
      · intro a ha
        simp only [dsStep, binder_devmon_ds_io_update_low_data,
          binder_devmon_ds_io_update_charging,
          binder_devmon_ds_io_set_cell_info_interval,
          (ds_push_charging_not_supported _ _ hX).2,
          List.mem_append, List.append_nil, List.mem_singleton] at ha
        rcases ha with ha | ha
        · exact (ds_push_low_data_charging_side _ _).2 a ha
        · simp [ha, DevAction.isSendKind]
  | displayChanged d =>
      constructor
      · simp only [dsStep, binder_devmon_ds_io_update_low_data]
        rw [(ds_push_low_data_charging_side _ _).1]
        exact hs
      · intro a ha
        simp only [dsStep, binder_devmon_ds_io_update_low_data,
          binder_devmon_ds_io_set_cell_info_interval, List.mem_append,
          List.mem_singleton] at ha
        rcases ha with ha | ha
        · exact (ds_push_low_data_charging_side _ _).2 a ha
        · simp [ha, DevAction.isSendKind]
  | batmanPoll sc bs =>
      have hX : (ds_push_low_data s
          (batman_low_data sc bs)).1.charging_supported = false := by
        rw [(ds_push_low_data_charging_side _ _).1]
        exact hs
      constructor
      · simp only [dsStep, handle_batman_inotify_events_ds]
        exact (ds_push_charging_not_supported _ _ hX).1
      · intro a ha
        simp only [dsStep, handle_batman_inotify_events_ds,
          (ds_push_charging_not_supported _ _ hX).2,
          List.mem_append, List.append_nil, List.mem_singleton] at ha
        rcases ha with ha | ha
        · exact (ds_push_low_data_charging_side _ _).2 a ha
        · simp [ha, DevAction.isSendKind]
  | complete h st rp er =>
      refine ⟨?_, ?_⟩
      · by_cases h1 : s.low_data_req = some h
        · have hlf := (ds_low_data_sent_flags s st rp er).2
          simp [dsStep, h1, hlf, hs]
        · by_cases h2 : s.charging_req = some h
          · simpa [dsStep, h1, h2] using
              (ds_charging_sent_flags s st rp er).1 hs
          · simp [dsStep, h1, h2, hs]
      · intro a ha
        by_cases h1 : s.low_data_req = some h
        · simp [dsStep, h1] at ha
        · by_cases h2 : s.charging_req = some h
          · simp [dsStep, h1, h2] at ha
          · simp [dsStep, h1, h2] at ha

/-- Once the low-data kind is unsupported, a whole DS run keeps it
unsupported and emits no low-data send. -/
theorem dsRun_low_data_unsupported (evs : List DsEvent) (s : DsIoState)
    (hs : s.low_data_supported = false) :
    (dsRun s evs).1.low_data_supported = false ∧
    ∀ a ∈ (dsRun s evs).2, DevAction.isSendKind ReqKind.lowData a = false := by
  induction evs generalizing s with
  | nil => exact ⟨hs, by simp [dsRun]⟩
  | cons e es ih =>
      obtain ⟨h1, h2⟩ := dsStep_low_data_unsupported s e hs
      obtain ⟨h3, h4⟩ := ih (dsStep s e).1 h1
      constructor
      · simpa only [dsRun] using h3
      · intro a ha
        simp only [dsRun, List.mem_append] at ha
        rcases ha with ha | ha
        · exact h2 a ha
        · exact h4 a ha

/-- Once the charging kind is unsupported, a whole DS run keeps it
unsupported and emits no charging send. -/
theorem dsRun_charging_unsupported (evs : List DsEvent) (s : DsIoState)
    (hs : s.charging_supported = false) :
    (dsRun s evs).1.charging_supported = false ∧
    ∀ a ∈ (dsRun s evs).2, DevAction.isSendKind ReqKind.charging a = false := by
  induction evs generalizing s with
  | nil => exact ⟨hs, by simp [dsRun]⟩
  | cons e es ih =>
      obtain ⟨h1, h2⟩ := dsStep_charging_unsupported s e hs
      obtain ⟨h3, h4⟩ := ih (dsStep s e).1 h1
      constructor
      · simpa only [dsRun] using h3
      · intro a ha
        simp only [dsRun, List.mem_append] at ha
        rcases ha with ha | ha
        · exact h2 a ha
        · exact h4 a ha

/-- The IF completion callback never turns the supported flag back on. -/
theorem if_filter_sent_flag (t : IfIoState) (st : RadioTxStatus)
    (rp : RadioResp) (er : RadioError) (hs : t.ind_filter_supported = false) :
    (binder_devmon_if_io_indication_filter_sent t st rp er).ind_filter_supported
      = false := by
  unfold binder_devmon_if_io_indication_filter_sent
  split_ifs <;> simp [hs]

/-- Once the indication-filter kind is unsupported, one IF step keeps it
unsupported and emits no filter send. -/
theorem ifStep_unsupported (t : IfIoState) (e : IfEvent)
    (hs : t.ind_filter_supported = false) :
    (ifStep t e).1.ind_filter_supported = false ∧
    ∀ a ∈ (ifStep t e).2, DevAction.isSendKind ReqKind.indFilter a = false := by
  cases e with
  | batteryChanged b =>
      exact ⟨hs, by simp [ifStep, binder_devmon_if_io_set_cell_info_interval,
        DevAction.isSendKind]⟩
  | chargerChanged c =>
      exact ⟨hs, by simp [ifStep, binder_devmon_if_io_set_cell_info_interval,
        DevAction.isSendKind]⟩
  | displayChanged d =>
      refine ⟨?_, ?_⟩
      · simp only [ifStep]
        split
        · exact hs
        · simp [binder_devmon_if_io_set_indication_filter, hs]
      · intro a ha
        simp only [ifStep] at ha
        split at ha
        · simp at ha
        · simp [binder_devmon_if_io_set_indication_filter, hs,
            binder_devmon_if_io_set_cell_info_interval] at ha
          simp [ha, DevAction.isSendKind]
  | batmanPoll sc bs =>
      refine ⟨hs, ?_⟩
      intro a ha
      simp only [ifStep, handle_batman_inotify_events_if,
        List.mem_singleton] at ha
      simp [ha, DevAction.isSendKind]
  | complete h st rp er =>
      refine ⟨?_, ?_⟩
      · by_cases h1 : t.req = some h
        · simpa [ifStep, h1] using if_filter_sent_flag t st rp er hs
        · simp [ifStep, h1, hs]
      · intro a ha
        by_cases h1 : t.req = some h
        · simp [ifStep, h1] at ha
        · simp [ifStep, h1] at ha

/-- Once the indication-filter kind is unsupported, a whole IF run keeps
it unsupported and emits no filter send. -/
theorem ifRun_unsupported (tevs : List IfEvent) (t : IfIoState)
    (hs : t.ind_filter_supported = false) :
    (ifRun t tevs).1.ind_filter_supported = false ∧
    ∀ a ∈ (ifRun t tevs).2, DevAction.isSendKind ReqKind.indFilter a = false := by
  induction tevs generalizing t with
  | nil => exact ⟨hs, by simp [ifRun]⟩
  | cons e es ih =>
      obtain ⟨h1, h2⟩ := ifStep_unsupported t e hs
      obtain ⟨h3, h4⟩ := ih (ifStep t e).1 h1
      constructor
      · simpa only [ifRun] using h3
      · intro a ha
        simp only [ifRun, List.mem_append] at ha
        rcases ha with ha | ha
        · exact h2 a ha
        · exact h4 a ha

/-- The IF filter submit never changes the supported flag. -/
theorem if_set_indication_filter_flag (t : IfIoState) :
    (binder_devmon_if_io_set_indication_filter t).1.ind_filter_supported
      = t.ind_filter_supported := by
  unfold binder_devmon_if_io_set_indication_filter
  cases hs : t.ind_filter_supported <;> simp [hs]

/-- A sample DS session state with pending low-data handle 0 and pending
charging handle 1. -/
def dsPending : DsIoState :=
  { dsSample with
    low_data_req := some 0
    charging_req := some 1
    nextHandle := 2 }

/-- A sample IF session state with pending filter handle 0. -/
def ifPending : IfIoState :=
  { ifSample with req := some 0, nextHandle := 1 }

/-- C3: each supported flag starts true at session creation, and once a
completion with RADIO_ERROR_REQUEST_NOT_SUPPORTED is delivered for the
pending request of a kind, that kind's supported flag is false for the
rest of the session and no further transport send of that kind is emitted,
whatever events follow. -/
theorem C3_sticky_unsupported (s : DsIoState) (t : IfIoState)
    (hL hC hF : Nat) (evs : List DsEvent) (tevs : List IfEvent)
    (hld : s.low_data_req = some hL)
    (hcg : s.charging_req = some hC)
    (hdis : s.low_data_req ≠ some hC)
    (htf : t.req = some hF) :
    (∀ (cn : BinderConnman) (b : MceBattery) (c : MceCharger)
        (d : MceDisplay) (shortMs longMs : Int),
      (binder_devmon_ds_start_io cn b c d shortMs
        longMs).1.low_data_supported = true ∧
      (binder_devmon_ds_start_io cn b c d shortMs
        longMs).1.charging_supported = true) ∧
    (∀ (b : MceBattery) (c : MceCharger) (d : MceDisplay) (iface : Nat)
        (shortMs longMs : Int),
      (binder_devmon_if_start_io b c d iface shortMs
        longMs).1.ind_filter_supported = true) ∧
    ((dsRun (dsStep s (DsEvent.complete hL RadioTxStatus.ok
        RadioResp.sendDeviceState RadioError.requestNotSupported)).1
        evs).1.low_data_supported = false ∧
      ∀ a ∈ (dsRun (dsStep s (DsEvent.complete hL RadioTxStatus.ok
        RadioResp.sendDeviceState RadioError.requestNotSupported)).1 evs).2,
        DevAction.isSendKind ReqKind.lowData a = false) ∧
    ((dsRun (dsStep s (DsEvent.complete hC RadioTxStatus.ok
        RadioResp.sendDeviceState RadioError.requestNotSupported)).1
        evs).1.charging_supported = false ∧
      ∀ a ∈ (dsRun (dsStep s (DsEvent.complete hC RadioTxStatus.ok
        RadioResp.sendDeviceState RadioError.requestNotSupported)).1 evs).2,
        DevAction.isSendKind ReqKind.charging a = false) ∧
    ((ifRun (ifStep t (IfEvent.complete hF RadioTxStatus.ok
        RadioResp.setIndicationFilter RadioError.requestNotSupported)).1
        tevs).1.ind_filter_supported = false ∧
      ∀ a ∈ (ifRun (ifStep t (IfEvent.complete hF RadioTxStatus.ok
        RadioResp.setIndicationFilter RadioError.requestNotSupported)).1
        tevs).2,
        DevAction.isSendKind ReqKind.indFilter a = false) := by
  refine ⟨?_, ?_, ?_, ?_, ?_⟩
  · intro cn b c d sh lo
    constructor
    · simp only [binder_devmon_ds_start_io,
        binder_devmon_ds_io_update_low_data,
        binder_devmon_ds_io_update_charging]
      rw [(ds_push_charging_low_data_side _ _).1, ds_push_low_data_flag]
    · simp only [binder_devmon_ds_start_io,
        binder_devmon_ds_io_update_low_data,
        binder_devmon_ds_io_update_charging]
      rw [ds_push_charging_flag, (ds_push_low_data_charging_side _ _).1]
  · intro b c d iface sh lo
    simp only [binder_devmon_if_start_io]
    rw [if_set_indication_filter_flag]
  · exact dsRun_low_data_unsupported evs _
      (by simp [dsStep, hld, binder_devmon_ds_io_low_data_state_sent])
  · exact dsRun_charging_unsupported evs _
      (by simp [dsStep, hdis, hcg, binder_devmon_ds_io_charging_state_sent])
  · exact ifRun_unsupported tevs _
      (by simp [ifStep, htf, binder_devmon_if_io_indication_filter_sent])

/-- Witness for C3 on the pending sample states, one follow-up signal
event on each variant. -/
theorem C3_sticky_unsupported_witness :
    (dsPending.low_data_req = some 0 ∧ dsPending.charging_req = some 1 ∧
      dsPending.low_data_req ≠ some 1 ∧ ifPending.req = some 0) ∧
    (dsRun (dsStep dsPending (DsEvent.complete 0 RadioTxStatus.ok
        RadioResp.sendDeviceState RadioError.requestNotSupported)).1
        [DsEvent.connmanChanged ⟨true, true⟩]).1.low_data_supported = false ∧
    (ifRun (ifStep ifPending (IfEvent.complete 0 RadioTxStatus.ok
        RadioResp.setIndicationFilter RadioError.requestNotSupported)).1
        [IfEvent.displayChanged ⟨true, MceDisplayState.on⟩]).1.ind_filter_supported
      = false :=
  ⟨⟨rfl, rfl, by decide, rfl⟩,
   (C3_sticky_unsupported dsPending ifPending 0 1 0
      [DsEvent.connmanChanged ⟨true, true⟩]
      [IfEvent.displayChanged ⟨true, MceDisplayState.on⟩]
      rfl rfl (by decide) rfl).2.2.1.1,
   (C3_sticky_unsupported dsPending ifPending 0 1 0
      [DsEvent.connmanChanged ⟨true, true⟩]
      [IfEvent.displayChanged ⟨true, MceDisplayState.on⟩]
      rfl rfl (by decide) rfl).2.2.2.2.1⟩

/-- Counterexample to C7 as stated: in the DS variant a completion with an
unexpected response identifier — a transport error other than
PermanentlyUnsupported — flips the low-data supported flag from true to
false. -/
theorem C7_counterexample :
    dsPending.low_data_supported = true ∧
    (dsStep dsPending (DsEvent.complete 0 RadioTxStatus.ok
        RadioResp.otherResp RadioError.noError)).1.low_data_supported
      = false := by
  decide

/-- C7 (amended): a completion that failed at the transport level, or that
carries the expected response with an error other than
REQUEST_NOT_SUPPORTED, keeps the supported flag, clears the pending
handle, and leaves the stored decision value unchanged, so the next
signal-driven recomputation can send again; in the DS variant (unlike IF)
an unexpected response identifier is excluded because it also clears the
flag. -/
theorem C7_other_errors_keep_supported (s : DsIoState) (t : IfIoState)
    (h hc : Nat) (st : RadioTxStatus) (rp : RadioResp) (er : RadioError)
    (hld : s.low_data_req = some h)
    (hdis : s.low_data_req ≠ some hc) (hcg : s.charging_req = some hc)
    (htf : t.req = some h) :
    ((st ≠ RadioTxStatus.ok ∨
        (rp = RadioResp.sendDeviceState ∧
          er ≠ RadioError.requestNotSupported)) →
      ((dsStep s (DsEvent.complete h st rp er)).1.low_data_supported =
          s.low_data_supported ∧
        (dsStep s (DsEvent.complete h st rp er)).1.low_data_req = none ∧
        (dsStep s (DsEvent.complete h st rp er)).1.low_data = s.low_data)) ∧
    ((st ≠ RadioTxStatus.ok ∨
        (rp = RadioResp.sendDeviceState ∧
          er ≠ RadioError.requestNotSupported)) →
      ((dsStep s (DsEvent.complete hc st rp er)).1.charging_supported =
          s.charging_supported ∧
        (dsStep s (DsEvent.complete hc st rp er)).1.charging_req = none ∧
        (dsStep s (DsEvent.complete hc st rp er)).1.charging = s.charging)) ∧
    ((¬(st = RadioTxStatus.ok ∧ rp = RadioResp.setIndicationFilter ∧
        er = RadioError.requestNotSupported)) →
      ((ifStep t (IfEvent.complete h st rp er)).1.ind_filter_supported =
          t.ind_filter_supported ∧
        (ifStep t (IfEvent.complete h st rp er)).1.req = none)) := by
  refine ⟨?_, ?_, ?_⟩
  · intro hcse
    rcases hcse with hst | ⟨hrp, her⟩
    · simp [dsStep, hld, binder_devmon_ds_io_low_data_state_sent, hst]
    · subst hrp
      by_cases hst : st = RadioTxStatus.ok <;>
        simp [dsStep, hld, binder_devmon_ds_io_low_data_state_sent, hst, her]
  · intro hcse
    rcases hcse with hst | ⟨hrp, her⟩
    · simp [dsStep, hdis, hcg, binder_devmon_ds_io_charging_state_sent, hst]
    · subst hrp
      by_cases hst : st = RadioTxStatus.ok <;>
        simp [dsStep, hdis, hcg, binder_devmon_ds_io_charging_state_sent,
          hst, her]
  · intro hn
    by_cases hst : st = RadioTxStatus.ok
    · by_cases hrp : rp = RadioResp.setIndicationFilter
      · by_cases her : er = RadioError.requestNotSupported
        · exact absurd ⟨hst, hrp, her⟩ hn
        · simp [ifStep, htf, binder_devmon_if_io_indication_filter_sent,
            hst, hrp, her]
      · simp [ifStep, htf, binder_devmon_if_io_indication_filter_sent,
          hst, hrp]
    · simp [ifStep, htf, binder_devmon_if_io_indication_filter_sent, hst]

/-- Witness for C7 (amended) on the pending samples with a failed
transmission. -/
theorem C7_other_errors_keep_supported_witness :
    (dsPending.low_data_req = some 0 ∧ dsPending.low_data_req ≠ some 1 ∧
      dsPending.charging_req = some 1 ∧ ifPending.req = some 0) ∧
    ((dsStep dsPending (DsEvent.complete 0 RadioTxStatus.failed
        RadioResp.otherResp RadioError.noError)).1.low_data_supported =
      dsPending.low_data_supported ∧
     (dsStep dsPending (DsEvent.complete 0 RadioTxStatus.failed
        RadioResp.otherResp RadioError.noError)).1.low_data_req = none ∧
     (dsStep dsPending (DsEvent.complete 0 RadioTxStatus.failed
        RadioResp.otherResp RadioError.noError)).1.low_data =
      dsPending.low_data) ∧
    ((ifStep ifPending (IfEvent.complete 0 RadioTxStatus.failed
        RadioResp.otherResp RadioError.noError)).1.ind_filter_supported =
      ifPending.ind_filter_supported ∧
     (ifStep ifPending (IfEvent.complete 0 RadioTxStatus.failed
        RadioResp.otherResp RadioError.noError)).1.req = none) :=
  ⟨⟨rfl, by decide, rfl, rfl⟩,
   (C7_other_errors_keep_supported dsPending ifPending 0 1
      RadioTxStatus.failed RadioResp.otherResp RadioError.noError
      rfl (by decide) rfl rfl).1 (Or.inl (by decide)),
   (C7_other_errors_keep_supported dsPending ifPending 0 1
      RadioTxStatus.failed RadioResp.otherResp RadioError.noError
      rfl (by decide) rfl rfl).2.2 (by decide)⟩

/-- Counterexample to C6 as stated: at session start with the display
valid and on (and everything else invalid), the computed initial low-data
and charging values are both false, equal to the zero-initialized
defaults, so the DS start path emits only the interval application and no
device-state send at all — the first low-data and charging applications
are suppressed by the edge filter. -/
theorem C6_counterexample :
    (binder_devmon_ds_start_io ⟨false, false⟩ ⟨false, 0⟩
        ⟨false, MceChargerState.unknown⟩ ⟨true, MceDisplayState.on⟩ 1 2).2.any
      (DevAction.isSendKind ReqKind.lowData) = false ∧
    (binder_devmon_ds_start_io ⟨false, false⟩ ⟨false, 0⟩
        ⟨false, MceChargerState.unknown⟩ ⟨true, MceDisplayState.on⟩ 1 2).2.any
      (DevAction.isSendKind ReqKind.charging) = false ∧
    (binder_devmon_ds_start_io ⟨false, false⟩ ⟨false, 0⟩
        ⟨false, MceChargerState.unknown⟩ ⟨true, MceDisplayState.on⟩ 1 2).2 =
      [DevAction.setInterval 2] := by
  decide

/-- C6 (amended): at session start the DS poll interval is applied
unconditionally and the IF indication filter is always sent, but the DS
low-data and charging values are edge-filtered against the
zero-initialized false defaults: an initial send of one of those kinds is
emitted exactly when its computed initial value is true. -/
theorem C6_initial_application (cn : BinderConnman) (b : MceBattery)
    (c : MceCharger) (d : MceDisplay) (shortMs longMs : Int) (iface : Nat) :
    ((binder_devmon_ds_start_io cn b c d shortMs longMs).2.any
        (DevAction.isSendKind ReqKind.lowData) =
      binder_devmon_ds_low_data_value cn c d) ∧
    ((binder_devmon_ds_start_io cn b c d shortMs longMs).2.any
        (DevAction.isSendKind ReqKind.charging) =
      binder_devmon_ds_charging c) ∧
    DevAction.setInterval (binder_devmon_ds_cell_info_interval d b c shortMs
        longMs) ∈ (binder_devmon_ds_start_io cn b c d shortMs longMs).2 ∧
    (binder_devmon_if_start_io b c d iface shortMs longMs).2.any
      (DevAction.isSendKind ReqKind.indFilter) = true := by
  cases hld : binder_devmon_ds_low_data_value cn c d <;>
    cases hch : binder_devmon_ds_charging c <;>
      simp [binder_devmon_ds_start_io, binder_devmon_ds_io_update_low_data,
        binder_devmon_ds_io_update_charging, ds_push_low_data,
        ds_push_charging, binder_devmon_ds_io_set_cell_info_interval, hld,
        hch, DevAction.isSendKind, binder_devmon_if_start_io,
        binder_devmon_if_io_set_indication_filter,
        binder_devmon_if_io_set_cell_info_interval]

/-- Counterexample to C4 as stated: with the screen off and the battery
charging the DS fallback chooses the short interval while the primary rule
on the equivalent snapshot (display valid and off, charger valid and on,
battery valid and ok) chooses the long one; and with the screen off and
the battery state unknown the fallback computes low-data false while the
primary rule on the equivalent snapshot (tethering and charger invalid,
display valid and off) computes low-data true. -/
theorem C4_counterexample :
    batman_cell_info_interval false (batman_charging BatmanState.charging)
      1 2 = 1 ∧
    binder_devmon_ds_cell_info_interval ⟨true, MceDisplayState.off⟩
      ⟨true, 3⟩ ⟨true, MceChargerState.on⟩ 1 2 = 2 ∧
    batman_low_data false BatmanState.unknown = false ∧
    binder_devmon_ds_low_data_value ⟨false, false⟩
      ⟨false, MceChargerState.unknown⟩ ⟨true, MceDisplayState.off⟩ = true := by
  decide

/-- C4 (amended): the DS fallback handler is a second producer feeding the
same coalescer — its low-data and charging pushes are gated by the same
stored-value edge filter and supported flags as the primary path — but it
computes the fed values by its own formulas (low-data means screen off and
battery discharging; interval is short when screen on or battery
charging/full), which differ from the primary decision rules on some
readings. -/
theorem C4_fallback_own_rules (s : DsIoState) (sc : Bool)
    (bs : BatmanState) :
    ((handle_batman_inotify_events_ds s sc bs).2.any
        (DevAction.isSendKind ReqKind.lowData) =
      (s.low_data_supported && !decide (s.low_data = batman_low_data sc bs))) ∧
    ((handle_batman_inotify_events_ds s sc bs).2.any
        (DevAction.isSendKind ReqKind.charging) =
      (s.charging_supported && !decide (s.charging = batman_charging bs))) ∧
    DevAction.setInterval (batman_cell_info_interval sc (batman_charging bs)
        s.cell_info_interval_short_ms s.cell_info_interval_long_ms) ∈
      (handle_batman_inotify_events_ds s sc bs).2 := by
  by_cases h1 : s.low_data = batman_low_data sc bs <;>
    cases hs1 : s.low_data_supported <;>
    by_cases h2 : s.charging = batman_charging bs <;>
    cases hs2 : s.charging_supported <;>
      simp [handle_batman_inotify_events_ds, ds_push_low_data,
        ds_push_charging, h1, h2, hs1, hs2, DevAction.isSendKind]
